import Mathlib

/-!
Verification of the guest-instance launcher (`src/ledger/launcher_receive_test/launcher.rs`)
against its specification.

The launcher is embedded shallowly: the fallible OS operations that
`Instance::start`, `kill` and `connect` perform (file reads, socket-pair
creation, handle duplication, process spawning, framed send/receive) are
supplied by an environment oracle (`World`, `KillWorld`), and the functions
record the operations they perform on the data socket as an explicit trace of
`SocketOp` events, in program order.  Bytes are natural numbers (wire values
are below 256).  Helpers that live outside the extracted sources
(`oak_channel::basic_framed`, the V1 header constant, the prost encoding of
`InitialData`, tokio's kill semantics) are modelled from the spec and marked
as such in their doc comments.
-/

namespace Launcher

/-- A byte of payload data, as a natural number. -/
abbrev Byte := Nat

/-- `InitialDataVersion` from launcher.rs: selects the bootstrap payload
format.  `V0` is the default (raw bytes), `V1` is the header-tagged
structured envelope. -/
inductive InitialDataVersion
  | V0
  | V1
  deriving DecidableEq, Repr

/-- `Params` from launcher.rs: launch configuration.  Paths are strings; the
core treats them as opaque and pre-validated. -/
structure Params where
  vmm_binary : String
  kernel : String
  app_binary : Option String
  bios_binary : String
  gdb : Option Nat
  memory_size : Option String
  initrd : String
  pci_passthrough : Option String
  initial_data_version : InitialDataVersion
  deriving DecidableEq, Repr

/-- Modelled from the spec: the `InitialData` protobuf message
(`oak_proto_rust::oak::restricted_kernel::InitialData`, not under src/) — a
structure with fields `application_bytes` and `endorsement_bytes`. -/
structure InitialData where
  application_bytes : List Byte
  endorsement_bytes : List Byte
  deriving DecidableEq, Repr

/-- Little-endian base-256 digits of `n`, fixed width `w` (a length field of
the serialization below). -/
def lenBytes (w : Nat) (n : Nat) : List Byte :=
  match w with
  | 0 => []
  | k + 1 => n % 256 :: lenBytes k (n / 256)

/-- Modelled from the spec: the prost serialization of `InitialData` (the
`Message::encode` implementation is not under src/).  The spec only requires
a serialization of the structure with its two byte fields; each field is
emitted as a fixed-width length followed by the field bytes. -/
def InitialData.encode (d : InitialData) : List Byte :=
  lenBytes 8 d.application_bytes.length ++ d.application_bytes
    ++ lenBytes 8 d.endorsement_bytes.length ++ d.endorsement_bytes

/-- Modelled from the spec: the fixed magic header constant
`oak_restricted_kernel_interface::initial_data::INITIAL_DATA_V1_HEADER`
(not under src/).  The spec treats its value as an environment-specific
constant fixed by the interoperating guest image; only that it is a fixed
byte sequence matters here. -/
def INITIAL_DATA_V1_HEADER : List Byte := [79, 75, 73, 68, 86, 49]

/-- The bootstrap payload built by `Instance::start` (launcher.rs lines
197-209): for `V0` the raw application bytes, for `V1` the magic header
followed by the encoding of `InitialData` with empty `endorsement_bytes`. -/
def initial_data_bytes (v : InitialDataVersion) (app_bytes : List Byte) : List Byte :=
  match v with
  | .V0 => app_bytes
  | .V1 =>
    INITIAL_DATA_V1_HEADER
      ++ InitialData.encode { application_bytes := app_bytes, endorsement_bytes := [] }

/-- An OS-level handle onto a socket: `id` identifies the descriptor (each
`try_clone` yields a fresh one), `endpoint` identifies the underlying kernel
stream endpoint (shared by all duplicates). -/
structure Handle where
  id : Nat
  endpoint : Nat
  deriving DecidableEq, Repr

/-- Operations performed on the data socket by `Instance::start`, in program
order. -/
inductive SocketOp
  | setReadDeadline (t : Option Nat)
  | sendFramed (payload : List Byte)
  | recvFramed
  | cloneHandle
  deriving DecidableEq, Repr

/-- Failure modes of the framed receive (`oak_channel::basic_framed::receive_raw`). -/
inductive RecvErr
  | timeout
  | closed
  deriving DecidableEq, Repr

/-- The environment oracle for one run of `Instance::start`: results of the
fallible OS operations, in the order the code can reach them. -/
structure World where
  /-- `fs::read` of the application binary path. -/
  fileContents : String → Option (List Byte)
  /-- `net::UnixStream::pair()` succeeds. -/
  pairOk : Bool
  /-- `guest_console.try_clone()` succeeds (failure panics via `unwrap`). -/
  cloneConsoleOk : Bool
  /-- `cmd.spawn()` succeeds. -/
  spawnOk : Bool
  /-- `host_socket.set_read_timeout(Some(30s))` succeeds. -/
  setTimeoutOk : Bool
  /-- `send_raw` of the bootstrap payload succeeds. -/
  sendOk : Bool
  /-- result of `receive_raw` for the attestation evidence. -/
  recvResult : Except RecvErr (List Byte)
  /-- `host_socket.set_read_timeout(None)` succeeds. -/
  clearTimeoutOk : Bool
  /-- `host_socket.try_clone()` succeeds. -/
  cloneHostOk : Bool
  /-- descriptor id handed out for the console clone. -/
  consoleCloneId : Nat
  /-- descriptor id of the host end of the fresh data socket pair. -/
  hostSocketId : Nat
  /-- kernel endpoint of the fresh data socket pair. -/
  dataEndpoint : Nat

/-- `Instance` from launcher.rs: the live resource set of a launched guest —
the retained console clone, the host end of the data socket, and the child
process (represented by its `kill_on_drop` configuration flag). -/
structure Instance where
  guest_console : Handle
  host_socket : Handle
  kill_on_drop : Bool
  deriving DecidableEq, Repr

/-- How a call to `Instance::start` ends: a returned value, a propagated
error (`?` on a `Result`), or a panic (`unwrap` on a failed operation). -/
inductive Outcome (α : Type)
  | ok (a : α)
  | error
  | panic
  deriving DecidableEq, Repr

/-- The part of `Instance::start` after the application binary has been read
(launcher.rs lines 130-282): create the data socket pair, duplicate the
console socket (`unwrap`: failure panics), configure the command with
`kill_on_drop(true)`, spawn, and — when an application payload is present —
run the bootstrap handshake over the data socket.  Returns the outcome
together with the trace of data-socket operations attempted. -/
def startAfterRead (params : Params) (app_bytes : Option (List Byte))
    (guest_console : Handle) (w : World) : Outcome Instance × List SocketOp :=
  if w.pairOk then
    if w.cloneConsoleOk then
      let guest_console_clone : Handle :=
        { id := w.consoleCloneId, endpoint := guest_console.endpoint }
      let host_socket : Handle := { id := w.hostSocketId, endpoint := w.dataEndpoint }
      if w.spawnOk then
        match app_bytes with
        | none =>
          (Outcome.ok { guest_console := guest_console_clone, host_socket := host_socket,
                        kill_on_drop := true }, [])
        | some bytes =>
          let payload := initial_data_bytes params.initial_data_version bytes
          if w.setTimeoutOk then
            if w.sendOk then
              match w.recvResult with
              | Except.error _ =>
                (Outcome.error,
                 [SocketOp.setReadDeadline (some 30), SocketOp.sendFramed payload,
                  SocketOp.recvFramed])
              | Except.ok _ =>
                if w.clearTimeoutOk then
                  if w.cloneHostOk then
                    (Outcome.ok { guest_console := guest_console_clone,
                                  host_socket := host_socket, kill_on_drop := true },
                     [SocketOp.setReadDeadline (some 30), SocketOp.sendFramed payload,
                      SocketOp.recvFramed, SocketOp.setReadDeadline none,
                      SocketOp.cloneHandle])
                  else
                    (Outcome.error,
                     [SocketOp.setReadDeadline (some 30), SocketOp.sendFramed payload,
                      SocketOp.recvFramed, SocketOp.setReadDeadline none,
                      SocketOp.cloneHandle])
                else
                  (Outcome.error,
                   [SocketOp.setReadDeadline (some 30), SocketOp.sendFramed payload,
                    SocketOp.recvFramed, SocketOp.setReadDeadline none])
            else
              (Outcome.error,
               [SocketOp.setReadDeadline (some 30), SocketOp.sendFramed payload])
          else
            (Outcome.error, [SocketOp.setReadDeadline (some 30)])
      else (Outcome.error, [])
    else (Outcome.panic, [])
  else (Outcome.error, [])

/-- `Instance::start` (launcher.rs lines 115-282).  The application binary is
read first (lines 116-128); a failed read propagates as an error before any
socket or process work. -/
def Instance.start (params : Params) (guest_console : Handle) (w : World) :
    Outcome Instance × List SocketOp :=
  match params.app_binary with
  | none => startAfterRead params none guest_console w
  | some path =>
    match w.fileContents path with
    | none => (Outcome.error, [])
    | some bytes => startAfterRead params (some bytes) guest_console w

/-- The payload of the first framed message sent on a trace, if any. -/
def firstSent : List SocketOp → Option (List Byte)
  | [] => none
  | SocketOp.sendFramed p :: _ => some p
  | _ :: rest => firstSent rest

/-- State of the child guest-monitor process. -/
inductive ProcState
  | running
  | exited (status : Int)
  deriving DecidableEq, Repr

/-- Whether the child process has terminated. -/
def ProcState.isExited : ProcState → Bool
  | .running => false
  | .exited _ => true

/-- Modelled from the spec: `tokio::process::Child::start_kill` — requests
forceful termination; requesting termination of a process that has already
exited is not an error, and the process keeps its terminal status
(`killStatus` is the terminal status a running process receives). -/
def start_kill (p : ProcState) (killStatus : Int) : ProcState :=
  match p with
  | .running => .exited killStatus
  | .exited s => .exited s

/-- The environment for one call of `kill` or for dropping an instance: the
child's current state, the forced-termination status, and whether the
console-socket shutdown succeeds. -/
structure KillWorld where
  proc : ProcState
  killStatus : Int
  shutdownOk : Bool
  deriving DecidableEq, Repr

/-- Operations performed by `Instance::kill`, in program order. -/
inductive KillEffect
  | shutdownBoth (console : Handle)
  | requestKill
  | awaitExit
  deriving DecidableEq, Repr

/-- `Instance::kill` (launcher.rs lines 292-297): takes ownership of the
instance (`self: Box<Self>` — in this embedding `kill` returns only the exit
status, never the instance), shuts down both directions of the retained
console socket, requests forceful termination via `start_kill`, then awaits
exit and returns the status. -/
def Instance.kill (inst : Instance) (w : KillWorld) : List KillEffect × Outcome Int :=
  if w.shutdownOk then
    match start_kill w.proc w.killStatus with
    | ProcState.exited s =>
      ([KillEffect.shutdownBoth inst.guest_console, KillEffect.requestKill,
        KillEffect.awaitExit], Outcome.ok s)
    | ProcState.running =>
      ([KillEffect.shutdownBoth inst.guest_console, KillEffect.requestKill], Outcome.error)
  else ([KillEffect.shutdownBoth inst.guest_console], Outcome.error)

/-- Modelled from the spec: the effect of dropping an `Instance` without an
explicit `kill` — tokio terminates a child spawned with `kill_on_drop(true)`
when its handle is dropped. -/
def dropInstance (inst : Instance) (w : KillWorld) : ProcState :=
  if inst.kill_on_drop then start_kill w.proc w.killStatus else w.proc

/-- `Instance::connect` (launcher.rs lines 299-302): duplicate the host end
of the data socket (`try_clone`), producing a new handle (`fresh` is the next
unused descriptor id) onto the same kernel endpoint. -/
def Instance.connect (inst : Instance) (fresh : Nat) : Handle × Nat :=
  ({ id := fresh, endpoint := inst.host_socket.endpoint }, fresh + 1)

/-- `n` successive calls of `Instance::connect`, threading the descriptor
allocator through. -/
def connectMany (inst : Instance) (fresh : Nat) : Nat → List Handle
  | 0 => []
  | n + 1 =>
    let r := inst.connect fresh
    r.1 :: connectMany inst r.2 n

/-- The console log forwarder loop (launcher.rs lines 330-341), with `acc`
the partially read line held in the `String` buffer.  `read_line` returns
bytes up to and including a newline; on a newline the code pops the
delimiter, logs the record and clears the buffer.  At end of stream,
`read_line` returns any unterminated remainder (without a newline), whose
last character the `pop` also removes; a subsequent read of zero bytes ends
the loop quietly. -/
def consoleForwardAux (acc : List Char) : List Char → List (List Char)
  | [] => if acc.isEmpty then [] else [acc.dropLast]
  | c :: rest =>
    if c = '\n' then acc :: consoleForwardAux [] rest
    else consoleForwardAux (acc ++ [c]) rest

/-- The records emitted by the console log forwarder for a given stream
content (the stream ends — a read returning zero bytes — after these
characters). -/
def consoleForward (s : List Char) : List (List Char) :=
  consoleForwardAux [] s

/-- The claim's reading of the forwarder, stated from the spec's words: one
record per newline-delimited line, in input order, with the trailing
delimiter stripped from each line (and nothing stripped from a line that has
no trailing delimiter). -/
def specConsoleRecords (acc : List Char) : List Char → List (List Char)
  | [] => if acc.isEmpty then [] else [acc]
  | c :: rest =>
    if c = '\n' then acc :: specConsoleRecords [] rest
    else specConsoleRecords (acc ++ [c]) rest

/-! Sample inputs used to instantiate the theorems below on concrete data. -/

/-- A sample configuration with an application payload and `V1` initial data. -/
def sampleParamsV1 : Params :=
  ⟨"qemu", "kernel", some "app", "bios", none, none, "initrd", none, InitialDataVersion.V1⟩

/-- A sample configuration with an application payload and `V0` initial data. -/
def sampleParamsV0 : Params :=
  ⟨"qemu", "kernel", some "app", "bios", none, none, "initrd", none, InitialDataVersion.V0⟩

/-- A sample configuration without an application payload. -/
def sampleParamsNoApp : Params :=
  ⟨"qemu", "kernel", none, "bios", none, none, "initrd", none, InitialDataVersion.V0⟩

/-- A sample console handle supplied by the caller. -/
def sampleConsole : Handle := ⟨3, 7⟩

/-- A sample environment in which every operation succeeds. -/
def sampleWorld : World :=
  ⟨fun _ => some [1, 2, 3], true, true, true, true, true, Except.ok [9], true, true, 10, 11, 5⟩

/-- A sample environment in which the evidence receive times out. -/
def sampleWorldRecvFail : World :=
  ⟨fun _ => some [1, 2, 3], true, true, true, true, true, Except.error RecvErr.timeout,
   true, true, 10, 11, 5⟩

/-- A sample environment in which duplicating the console socket fails. -/
def sampleWorldCloneFail : World :=
  ⟨fun _ => some [1, 2, 3], true, false, true, true, true, Except.ok [9], true, true, 10, 11, 5⟩

/-! The claims. -/

/-- C1.  For every configuration with an application payload and
`InitialDataVersion::V1`, the bootstrap payload written as the first framed
message over the data socket is exactly the fixed magic header constant
followed by the serialization of an `InitialData` structure whose
`application_bytes` equals the bytes read from the application-binary file
and whose `endorsement_bytes` is empty. -/
theorem v1_bootstrap_payload (params : Params) (guest_console : Handle) (w : World)
    (path : String) (bytes : List Byte)
    (hpath : params.app_binary = some path)
    (hver : params.initial_data_version = InitialDataVersion.V1)
    (hfile : w.fileContents path = some bytes)
    (hpair : w.pairOk = true) (hclone : w.cloneConsoleOk = true)
    (hspawn : w.spawnOk = true) (htimeout : w.setTimeoutOk = true)
    (hsend : w.sendOk = true) :
    ∃ d : InitialData,
      d.application_bytes = bytes ∧ d.endorsement_bytes = [] ∧
      firstSent (Instance.start params guest_console w).2
        = some (INITIAL_DATA_V1_HEADER ++ d.encode) := by
  refine ⟨⟨bytes, []⟩, rfl, rfl, ?_⟩
  simp only [Instance.start, hpath, hfile, startAfterRead, hpair, hclone, hspawn, htimeout,
    hsend, hver, if_true]
  rcases hr : w.recvResult with e | v <;>
    simp only [hr] <;>
    cases hc : w.clearTimeoutOk <;>
    cases hh : w.cloneHostOk <;>
    simp [firstSent, initial_data_bytes]

/-- Witness for C1 at a concrete configuration and environment. -/
theorem v1_bootstrap_payload_witness :
    ∃ d : InitialData,
      d.application_bytes = [1, 2, 3] ∧ d.endorsement_bytes = [] ∧
      firstSent (Instance.start sampleParamsV1 sampleConsole sampleWorld).2
        = some (INITIAL_DATA_V1_HEADER ++ d.encode) :=
  v1_bootstrap_payload sampleParamsV1 sampleConsole sampleWorld "app" [1, 2, 3]
    rfl rfl rfl rfl rfl rfl rfl rfl

/-- C2.  For every configuration with an application payload and
`InitialDataVersion::V0`, the bootstrap payload written as the first framed
message over the data socket equals exactly the bytes read from the
application-binary file, with no header added. -/
theorem v0_bootstrap_payload (params : Params) (guest_console : Handle) (w : World)
    (path : String) (bytes : List Byte)
    (hpath : params.app_binary = some path)
    (hver : params.initial_data_version = InitialDataVersion.V0)
    (hfile : w.fileContents path = some bytes)
    (hpair : w.pairOk = true) (hclone : w.cloneConsoleOk = true)
    (hspawn : w.spawnOk = true) (htimeout : w.setTimeoutOk = true)
    (hsend : w.sendOk = true) :
    firstSent (Instance.start params guest_console w).2 = some bytes := by
  simp only [Instance.start, hpath, hfile, startAfterRead, hpair, hclone, hspawn, htimeout,
    hsend, hver, if_true]
  rcases hr : w.recvResult with e | v <;>
    simp only [hr] <;>
    cases hc : w.clearTimeoutOk <;>
    cases hh : w.cloneHostOk <;>
    simp [firstSent, initial_data_bytes]

/-- Witness for C2 at a concrete configuration and environment. -/
theorem v0_bootstrap_payload_witness :
    firstSent (Instance.start sampleParamsV0 sampleConsole sampleWorld).2 = some [1, 2, 3] :=
  v0_bootstrap_payload sampleParamsV0 sampleConsole sampleWorld "app" [1, 2, 3]
    rfl rfl rfl rfl rfl rfl rfl rfl

/-- C3.  For every configuration with an application payload, a successful
`start` performs exactly this sequence on the data socket: it installs a
finite 30-second read timeout, then writes the framed bootstrap envelope,
then reads the framed evidence, then removes the read timeout (restores
unbounded blocking), then duplicates the handle — so the timeout is
installed before the write and removed on successful completion of the
handshake, before the `Instance` is returned. -/
theorem handshake_timeout_discipline (params : Params) (guest_console : Handle) (w : World)
    (path : String) (bytes ev : List Byte)
    (hpath : params.app_binary = some path)
    (hfile : w.fileContents path = some bytes)
    (hpair : w.pairOk = true) (hclone : w.cloneConsoleOk = true)
    (hspawn : w.spawnOk = true) (htimeout : w.setTimeoutOk = true)
    (hsend : w.sendOk = true) (hrecv : w.recvResult = Except.ok ev)
    (hclear : w.clearTimeoutOk = true) (hchost : w.cloneHostOk = true) :
    (Instance.start params guest_console w).2 =
      [SocketOp.setReadDeadline (some 30),
       SocketOp.sendFramed (initial_data_bytes params.initial_data_version bytes),
       SocketOp.recvFramed, SocketOp.setReadDeadline none, SocketOp.cloneHandle] ∧
    ∃ inst, (Instance.start params guest_console w).1 = Outcome.ok inst := by
  simp only [Instance.start, hpath, hfile, startAfterRead, hpair, hclone, hspawn, htimeout,
    hsend, hrecv, hclear, hchost, if_true]
  exact ⟨trivial, _, rfl⟩

/-- Witness for C3 at a concrete configuration and environment. -/
theorem handshake_timeout_discipline_witness :
    (Instance.start sampleParamsV0 sampleConsole sampleWorld).2 =
      [SocketOp.setReadDeadline (some 30),
       SocketOp.sendFramed (initial_data_bytes sampleParamsV0.initial_data_version [1, 2, 3]),
       SocketOp.recvFramed, SocketOp.setReadDeadline none, SocketOp.cloneHandle] ∧
    ∃ inst, (Instance.start sampleParamsV0 sampleConsole sampleWorld).1 = Outcome.ok inst :=
  handshake_timeout_discipline sampleParamsV0 sampleConsole sampleWorld "app" [1, 2, 3] [9]
    rfl rfl rfl rfl rfl rfl rfl rfl rfl rfl

/-- C4.  For every configuration with an application payload, if the
handshake fails — the framed send fails, or the evidence receive fails or
times out — then `start` returns an error, and in particular no `Instance`
is returned to the caller. -/
theorem handshake_failure_no_instance (params : Params) (guest_console : Handle) (w : World)
    (path : String) (bytes : List Byte)
    (hpath : params.app_binary = some path)
    (hfile : w.fileContents path = some bytes)
    (hpair : w.pairOk = true) (hclone : w.cloneConsoleOk = true)
    (hspawn : w.spawnOk = true) (htimeout : w.setTimeoutOk = true)
    (hfail : w.sendOk = false ∨ ∃ e, w.recvResult = Except.error e) :
    (Instance.start params guest_console w).1 = Outcome.error := by
  simp only [Instance.start, hpath, hfile, startAfterRead, hpair, hclone, hspawn, htimeout,
    if_true]
  rcases hfail with hs | ⟨e, hr⟩
  · simp [hs]
  · cases hsend : w.sendOk <;> simp [hr]

/-- Witness for C4: the evidence receive times out at a concrete
configuration and environment. -/
theorem handshake_failure_no_instance_witness :
    (Instance.start sampleParamsV0 sampleConsole sampleWorldRecvFail).1 = Outcome.error :=
  handshake_failure_no_instance sampleParamsV0 sampleConsole sampleWorldRecvFail "app" [1, 2, 3]
    rfl rfl rfl rfl rfl rfl (Or.inr ⟨RecvErr.timeout, rfl⟩)

/-- C5.  For every configuration without an application payload, `start`
performs no handshake I/O on the data socket — the data-socket trace is
empty, whatever the environment does — and succeeds whenever the steps up to
and including process spawning succeed. -/
theorem no_payload_no_handshake (params : Params) (guest_console : Handle) (w : World)
    (hnone : params.app_binary = none) :
    (Instance.start params guest_console w).2 = [] ∧
    (w.pairOk = true → w.cloneConsoleOk = true → w.spawnOk = true →
      ∃ inst, (Instance.start params guest_console w).1 = Outcome.ok inst) := by
  constructor
  · simp only [Instance.start, hnone, startAfterRead]
    cases hp : w.pairOk <;> cases hc : w.cloneConsoleOk <;> cases hs : w.spawnOk <;> simp
  · intro hp hc hs
    simp only [Instance.start, hnone, startAfterRead, hp, hc, hs, if_true]
    exact ⟨_, rfl⟩

/-- Witness for C5 at a concrete configuration and environment. -/
theorem no_payload_no_handshake_witness :
    (Instance.start sampleParamsNoApp sampleConsole sampleWorld).2 = [] ∧
    (sampleWorld.pairOk = true → sampleWorld.cloneConsoleOk = true →
      sampleWorld.spawnOk = true →
      ∃ inst, (Instance.start sampleParamsNoApp sampleConsole sampleWorld).1
        = Outcome.ok inst) :=
  no_payload_no_handshake sampleParamsNoApp sampleConsole sampleWorld rfl

/-- An instance as produced by a successful `start` in `sampleWorld`. -/
def sampleInstance : Instance := ⟨⟨10, 7⟩, ⟨11, 5⟩, true⟩

/-- A sample kill environment whose child has already exited with status 3. -/
def sampleKillWorld : KillWorld := ⟨ProcState.exited 3, 137, true⟩

/-- C6.  `kill` consumes the instance (ownership passes into the call, so in
the embedding `kill` returns only the exit status and no instance survives),
shuts down both directions of the console socket, requests forceful process
termination, then awaits exit and returns the exit status; requesting
termination of a process that has already exited is not an error, and the
call returns that process's terminal status. -/
theorem kill_shutdown_and_status (inst : Instance) (w : KillWorld)
    (h : w.shutdownOk = true) :
    (inst.kill w).1 = [KillEffect.shutdownBoth inst.guest_console, KillEffect.requestKill,
      KillEffect.awaitExit] ∧
    (∃ s, (inst.kill w).2 = Outcome.ok s) ∧
    (∀ s0 : Int, w.proc = ProcState.exited s0 → (inst.kill w).2 = Outcome.ok s0) := by
  cases hp : w.proc <;> simp [Instance.kill, start_kill, h, hp]

/-- Witness for C6 on an already-exited child process. -/
theorem kill_shutdown_and_status_witness :
    (sampleInstance.kill sampleKillWorld).1 =
      [KillEffect.shutdownBoth sampleInstance.guest_console, KillEffect.requestKill,
       KillEffect.awaitExit] ∧
    (∃ s, (sampleInstance.kill sampleKillWorld).2 = Outcome.ok s) ∧
    (∀ s0 : Int, sampleKillWorld.proc = ProcState.exited s0 →
      (sampleInstance.kill sampleKillWorld).2 = Outcome.ok s0) :=
  kill_shutdown_and_status sampleInstance sampleKillWorld rfl

/-- The descriptor ids handed out by `n` successive `connect` calls are the
consecutive fresh ids. -/
theorem connectMany_map_id (inst : Instance) :
    ∀ (n fresh : Nat), (connectMany inst fresh n).map Handle.id = List.range' fresh n
  | 0, _ => rfl
  | n + 1, fresh => by
    simp [connectMany, Instance.connect, List.range'_succ, connectMany_map_id inst n (fresh + 1)]

/-- Every handle produced by successive `connect` calls points at the data
socket's kernel endpoint. -/
theorem connectMany_endpoint (inst : Instance) :
    ∀ (n fresh : Nat),
      ((connectMany inst fresh n).all
        fun ch => ch.endpoint == inst.host_socket.endpoint) = true
  | 0, _ => rfl
  | n + 1, fresh => by
    simp [connectMany, Instance.connect, connectMany_endpoint inst n (fresh + 1)]

/-- C7.  Every call to `connect` on a live instance returns a new duplicate
handle onto the data socket: over any number of calls, every returned handle
refers to the same underlying socket endpoint as the instance's data socket
(the same stream, not a fresh one), while the handles themselves are pairwise
distinct descriptors. -/
theorem connect_duplicates_same_stream (inst : Instance) (fresh n : Nat) :
    ((connectMany inst fresh n).all
      fun ch => ch.endpoint == inst.host_socket.endpoint) = true ∧
    ((connectMany inst fresh n).map Handle.id).Nodup := by
  refine ⟨connectMany_endpoint inst n fresh, ?_⟩
  rw [connectMany_map_id inst n fresh]
  exact List.nodup_range' _ _

/-- C8.  Evaluation of the console forwarder: the bytes `"hello\nworld\n"`
produce exactly the two records `"hello"` then `"world"`, and a stream that
ends at once (a read of zero bytes) produces no records and ends quietly.
However, on the failing input `"ab"` — a stream closed without a trailing
newline — the code emits the record `"a"`: `line.pop()` removes the last
content character, where the claim (and the code's own comment, "remove the
new line character") prescribe stripping only the trailing delimiter, which
would give the record `"ab"` as computed by `specConsoleRecords`. -/
theorem console_forwarder_eval :
    consoleForward ("hello\nworld\n".toList) = ["hello".toList, "world".toList] ∧
    consoleForward [] = [] ∧
    consoleForward ['a', 'b'] = [['a']] ∧
    specConsoleRecords [] ['a', 'b'] = [['a', 'b']] :=
  ⟨rfl, rfl, rfl, rfl⟩

/-- A kill request leaves the child in a terminated state, whatever state it
was in. -/
theorem start_kill_isExited (p : ProcState) (k : Int) :
    (start_kill p k).isExited = true := by
  cases p <;> rfl

/-- Every instance returned by the post-read phase of `start` carries the
`kill_on_drop` flag. -/
theorem startAfterRead_ok_kill_on_drop (params : Params) (ab : Option (List Byte))
    (gc : Handle) (w : World) (inst : Instance)
    (h : (startAfterRead params ab gc w).1 = Outcome.ok inst) :
    inst.kill_on_drop = true := by
  unfold startAfterRead at h
  repeat' split at h
  all_goals simp only at h
  all_goals first
    | exact Outcome.noConfusion h
    | (injection h with h1; subst h1; rfl)

/-- C9.  Every `Instance` returned by `start` was spawned with
`kill_on_drop(true)`, so dropping it without an explicit `kill` terminates
the child guest-monitor process (via the drop effect modelled from the
spec): no orphaned guest process survives its owning handle being
discarded. -/
theorem kill_on_drop_terminates (params : Params) (guest_console : Handle) (w : World)
    (inst : Instance) (tr : List SocketOp)
    (h : Instance.start params guest_console w = (Outcome.ok inst, tr)) :
    inst.kill_on_drop = true ∧
    ∀ kw : KillWorld, (dropInstance inst kw).isExited = true := by
  have h1 : (Instance.start params guest_console w).1 = Outcome.ok inst :=
    congrArg Prod.fst h
  have hk : inst.kill_on_drop = true := by
    unfold Instance.start at h1
    split at h1
    · exact startAfterRead_ok_kill_on_drop _ _ _ _ _ h1
    · split at h1
      · exact Outcome.noConfusion h1
      · exact startAfterRead_ok_kill_on_drop _ _ _ _ _ h1
  refine ⟨hk, fun kw => ?_⟩
  simp only [dropInstance, hk, if_true]
  exact start_kill_isExited kw.proc kw.killStatus

/-- Witness for C9 at a concrete configuration and environment in which
`start` succeeds. -/
theorem kill_on_drop_terminates_witness :
    sampleInstance.kill_on_drop = true ∧
    ∀ kw : KillWorld, (dropInstance sampleInstance kw).isExited = true :=
  kill_on_drop_terminates sampleParamsNoApp sampleConsole sampleWorld sampleInstance [] rfl

/-- C10.  If duplicating the caller-supplied console socket fails, `start`
panics (the `unwrap` on the clone result) instead of returning an error to
the caller; consequently, whenever the duplication step is reached and
fails, `start` does not return at all, so for `start` to return, the
duplication must have succeeded. -/
theorem console_clone_failure_panics (params : Params) (guest_console : Handle) (w : World)
    (hread : params.app_binary = none ∨
      ∃ path bytes, params.app_binary = some path ∧ w.fileContents path = some bytes)
    (hpair : w.pairOk = true) (hclone : w.cloneConsoleOk = false) :
    (Instance.start params guest_console w).1 = Outcome.panic := by
  rcases hread with hnone | ⟨path, bytes, hpath, hfile⟩ <;>
    simp [Instance.start, startAfterRead, *]

/-- Witness for C10 at a concrete configuration and environment whose
console-socket duplication fails. -/
theorem console_clone_failure_panics_witness :
    (Instance.start sampleParamsNoApp sampleConsole sampleWorldCloneFail).1
      = Outcome.panic :=
  console_clone_failure_panics sampleParamsNoApp sampleConsole sampleWorldCloneFail
    (Or.inl rfl) rfl rfl

end Launcher
